import Mathlib

/-!
Verification of the workflow-notification program (src/main.py) against its
natural-language specification.  The Python source is shallowly embedded:
dictionaries from the GitHub API become structures with `Option` fields
(`none` models an absent key, `.getD` models `dict.get(key, default)`),
timestamps become natural numbers counting whole seconds (the source parses
`%Y-%m-%dT%H:%M:%SZ` strings into second-precision datetimes), and the one
place the source can raise an exception that its caller catches is modelled
with `Option String` (`none` = exception).
-/

namespace WorkflowNotify

/-- One job of a workflow run, as consumed from the GitHub jobs API.
Fields mirror the keys read by src/main.py: `id`, `name`, `status`,
`conclusion` (nullable), `started_at` / `completed_at` (nullable timestamps,
in seconds), `html_url`. -/
structure Job where
  id : Nat
  name : String
  status : String
  conclusion : Option String
  started_at : Option Nat
  completed_at : Option Nat
  html_url : String
deriving DecidableEq, Repr

/-- MAX_ATTEMPTS constant of src/main.py line 28. -/
def MAX_ATTEMPTS : Nat := 5

/-- SLEEP_INTERVAL constant of src/main.py line 29 (seconds). -/
def SLEEP_INTERVAL : Nat := 5

/-- Embedding of `compute_duration` (src/main.py lines 106-120).  `none`
models a `None` argument.  Python computes `duration = end - start` as a
`timedelta` and then reads `duration.seconds`, which is the second count
within the day component, i.e. `(end - start) % 86400` for a non-negative
difference; `divmod(duration.seconds, 60)` then yields minutes and seconds. -/
def compute_duration : Option Nat → Option Nat → String
  | some start_time, some end_time =>
    if end_time < start_time then "N/A"
    else
      let secs := (end_time - start_time) % 86400
      toString (secs / 60) ++ "m " ++ toString (secs % 60) ++ "s"
  | _, _ => "N/A"

/-- Jobs still pending, as computed by the watcher loop (src/main.py lines
168-171): id differs from the reporting job id and status is not
"completed". -/
def pendingJobs (jobs : List Job) (current_job_id : Nat) : List Job :=
  jobs.filter (fun job => job.id != current_job_id && job.status != "completed")

/-- Outcome of the watcher `get_workflow_jobs` (src/main.py lines 141-181):
the returned value (`none` when the while-loop falls through after
MAX_ATTEMPTS failed checks) together with counters of the network fetches
and `time.sleep` calls performed. -/
structure WatchResult where
  result : Option (List Job)
  fetches : Nat
  sleeps : Nat
deriving DecidableEq, Repr

/-- The while-loop of `get_workflow_jobs` (src/main.py lines 150-178),
recursing on the remaining attempt budget (MAX_ATTEMPTS - attempts).
`polls i` is the job list the i-th fetch returns; each iteration fetches
once, returns the snapshot when no job is pending, and otherwise sleeps and
retries. -/
def watchFrom (polls : Nat → List Job) (current_job_id : Nat) :
    Nat → Nat → Nat → Nat → WatchResult
  | _, 0, fetches, sleeps => ⟨none, fetches, sleeps⟩
  | attempt, remaining + 1, fetches, sleeps =>
    let jobs_data := polls attempt
    if (pendingJobs jobs_data current_job_id).isEmpty then
      ⟨some jobs_data, fetches + 1, sleeps⟩
    else
      watchFrom polls current_job_id (attempt + 1) remaining (fetches + 1) (sleeps + 1)

/-- Embedding of `get_workflow_jobs` (src/main.py lines 141-181), with the
HTTP transport abstracted into the snapshot sequence `polls` (every fetch
succeeds; the HTTP-error early return is outside every claim). -/
def get_workflow_jobs (polls : Nat → List Job) (current_job_id : Nat) : WatchResult :=
  watchFrom polls current_job_id 0 MAX_ATTEMPTS 0 0

/-- Leading and trailing whitespace removed from a character list; the
character-level meaning of Python str.strip(). -/
def stripChars (cs : List Char) : List Char :=
  ((cs.dropWhile Char.isWhitespace).reverse.dropWhile Char.isWhitespace).reverse

/-- Normalization `get_current_job_id` applies to both sides of its name
comparison (src/main.py lines 202-206): strip, lower-case, keep only
alphanumeric characters. -/
def normalize_job_name (s : String) : String :=
  String.mk (((stripChars s.data).map Char.toLower).filter Char.isAlphanum)

/-- Embedding of `get_current_job_id` (src/main.py lines 183-215): the id of
the first job whose normalized name equals the normalized query name, else
`none`. -/
def get_current_job_id (jobs : List Job) (job_name : String) : Option Nat :=
  (jobs.find? (fun job =>
    normalize_job_name job.name == normalize_job_name job_name)).map Job.id

/-- Loop body of `calculate_total_duration` (src/main.py lines 220-231):
skip the reporting job, add completed - started when both timestamps are
present, otherwise leave the accumulator unchanged. -/
def total_duration_step (current_job_id : Nat) (total_duration : Int) (job : Job) : Int :=
  if job.id == current_job_id then total_duration
  else
    match job.started_at, job.completed_at with
    | some start_time, some end_time =>
      total_duration + ((end_time : Int) - (start_time : Int))
    | _, _ => total_duration

/-- Embedding of `calculate_total_duration` (src/main.py lines 217-233). -/
def calculate_total_duration (jobs : List Job) (current_job_id : Nat) : Int :=
  jobs.foldl (total_duration_step current_job_id) 0

/-- The job filter the composer applies before rendering (src/main.py line
332): drop the job whose id is the reporting job id. -/
def filtered_jobs (jobs : List Job) (current_job_id : Nat) : List Job :=
  jobs.filter (fun job => job.id != current_job_id)

/-- A job rename, changing only the display name; used to state that the
exclusion logic is insensitive to names. -/
def renameJob (f : String → String) (job : Job) : Job :=
  { job with name := f job.name }

/-- C5: for completedAt < startedAt, `compute_duration` returns the literal
marker "N/A" (the marker used by the code; test.py expects the sibling
marker "Invalid time") and never a rendered negative duration. -/
theorem compute_duration_inverted_is_marker (s e : Nat) (h : e < s) :
    compute_duration (some s) (some e) = "N/A" := by
  simp [compute_duration, h]

/-- Witness for C5 at a concrete inverted pair: start 12:00:00, end 11:30:30
of the same day (43200 and 41430 seconds). -/
theorem compute_duration_inverted_is_marker_witness :
    compute_duration (some 43200) (some 41430) = "N/A" :=
  compute_duration_inverted_is_marker 43200 41430 (by decide)

/-- C9: for completedAt >= startedAt the duration renders as
"{minutes}m {seconds}s" with the seconds component strictly below 60. -/
theorem compute_duration_renders_minutes_seconds (s e : Nat) (h : s ≤ e) :
    ∃ (m sec : Nat), sec < 60 ∧
      compute_duration (some s) (some e) = toString m ++ "m " ++ toString sec ++ "s" := by
  refine ⟨(e - s) % 86400 / 60, (e - s) % 86400 % 60, Nat.mod_lt _ (by norm_num), ?_⟩
  simp [compute_duration, Nat.not_lt.2 h]

/-- Witness for C9: start 12:00:00 (43200 s) and end 12:30:30 (45030 s)
render as "30m 30s". -/
theorem compute_duration_renders_minutes_seconds_witness :
    (∃ (m sec : Nat), sec < 60 ∧
      compute_duration (some 43200) (some 45030) = toString m ++ "m " ++ toString sec ++ "s") ∧
    compute_duration (some 43200) (some 45030) = "30m 30s" :=
  ⟨compute_duration_renders_minutes_seconds 43200 45030 (by decide), by decide⟩

/-- C10: `compute_duration` discards whole days: the rendered string depends
only on (end - start) modulo 86400 seconds. -/
theorem compute_duration_mod_day (s e : Nat) (h : s ≤ e) :
    compute_duration (some s) (some e) = compute_duration (some 0) (some ((e - s) % 86400)) := by
  simp [compute_duration, Nat.not_lt.2 h, Nat.mod_mod_of_dvd]

/-- Witness for C10: 24 hours plus 30 seconds renders as "0m 30s", the same
string as a bare 30-second duration. -/
theorem compute_duration_mod_day_witness :
    compute_duration (some 0) (some 86430) = compute_duration (some 0) (some 30) ∧
    compute_duration (some 0) (some 86430) = "0m 30s" :=
  ⟨(compute_duration_mod_day 0 86430 (by decide)).trans (by decide), by decide⟩

/-- Helper: the pending-job filter is insensitive to job names. -/
theorem pendingJobs_map_rename (f : String → String) (jobs : List Job) (cid : Nat) :
    pendingJobs (jobs.map (renameJob f)) cid = (pendingJobs jobs cid).map (renameJob f) := by
  simp only [pendingJobs, List.filter_map]
  rfl

/-- Helper: the composer's reporting-job filter is insensitive to job names. -/
theorem filtered_jobs_map_rename (f : String → String) (jobs : List Job) (cid : Nat) :
    filtered_jobs (jobs.map (renameJob f)) cid = (filtered_jobs jobs cid).map (renameJob f) := by
  simp only [filtered_jobs, List.filter_map]
  rfl

/-- Helper: the duration aggregation is insensitive to job names. -/
theorem calculate_total_duration_map_rename (f : String → String) (jobs : List Job) (cid : Nat) :
    calculate_total_duration (jobs.map (renameJob f)) cid = calculate_total_duration jobs cid := by
  have hstep : (fun (acc : Int) (job : Job) => total_duration_step cid acc (renameJob f job)) =
      total_duration_step cid := by
    funext acc job
    rfl
  simp only [calculate_total_duration, List.foldl_map, hstep]

/-- C1 counterexample: the program does derive the reporting job id by
normalized display-name matching: `get_current_job_id` selects a job whose
raw name differs from the queried name, because the two names agree once
case-folded, whitespace-stripped and alphanumeric-filtered. -/
theorem reporting_job_id_derived_by_name_matching :
    get_current_job_id
      [⟨42, " Notify_Telegram ", "in_progress", none, none, none, "https://job"⟩]
      "notify-telegram" = some 42 ∧
    " Notify_Telegram " ≠ "notify-telegram" := by
  decide

/-- C1 (amended): the reporting job id is resolved once, by
`get_current_job_id`, via normalized name matching; every component
downstream of that resolution (the watcher's pending filter, the duration
aggregator, and the composer's job filter) uses only the resolved id as the
exclusion key and is invariant under arbitrary renaming of the jobs. -/
theorem exclusion_key_downstream_is_id_only (f : String → String) (jobs : List Job) (cid : Nat) :
    pendingJobs (jobs.map (renameJob f)) cid = (pendingJobs jobs cid).map (renameJob f) ∧
    filtered_jobs (jobs.map (renameJob f)) cid = (filtered_jobs jobs cid).map (renameJob f) ∧
    calculate_total_duration (jobs.map (renameJob f)) cid = calculate_total_duration jobs cid :=
  ⟨pendingJobs_map_rename f jobs cid, filtered_jobs_map_rename f jobs cid,
   calculate_total_duration_map_rename f jobs cid⟩

/-- A job stuck in progress, used in watcher scenarios. -/
def stuckJob : Job := ⟨1, "build", "in_progress", none, some 100, none, "https://b"⟩

/-- A second stuck job, queued and never started. -/
def stuckJob2 : Job := ⟨2, "test", "queued", none, none, none, "https://t"⟩

/-- A completed job, used in watcher scenarios. -/
def doneJob : Job := ⟨1, "build", "completed", some "success", some 100, some 400, "https://b"⟩

/-- A snapshot sequence in which every poll sees the single completed job. -/
def pollsAllDone : Nat → List Job := fun _ => [doneJob]

/-- A snapshot sequence in which one job stays pending on every poll. -/
def pollsStuckOne : Nat → List Job := fun _ => [stuckJob]

/-- A snapshot sequence in which two jobs stay pending on every poll. -/
def pollsStuckTwo : Nat → List Job := fun _ => [stuckJob, stuckJob2]

/-- Helper: when some job is pending on every poll of the remaining window,
the loop exhausts the budget, fetching and sleeping once per remaining
attempt and returning `none`. -/
theorem watchFrom_exhausts (polls : Nat → List Job) (cid : Nat) :
    ∀ (remaining attempt fetches sleeps : Nat),
      (∀ i, attempt ≤ i → i < attempt + remaining → pendingJobs (polls i) cid ≠ []) →
      watchFrom polls cid attempt remaining fetches sleeps =
        ⟨none, fetches + remaining, sleeps + remaining⟩ := by
  intro remaining
  induction remaining with
  | zero => intro attempt fetches sleeps _; rfl
  | succ r ih =>
    intro attempt fetches sleeps hpend
    have h0 : pendingJobs (polls attempt) cid ≠ [] :=
      hpend attempt (Nat.le_refl _) (by omega)
    have : (pendingJobs (polls attempt) cid).isEmpty = false := by
      cases hp : pendingJobs (polls attempt) cid with
      | nil => exact absurd hp h0
      | cons a l => rfl
    rw [watchFrom, if_neg (by simp [this])]
    rw [ih (attempt + 1) (fetches + 1) (sleeps + 1) (fun i h1 h2 => hpend i (by omega) (by omega))]
    congr 1 <;> omega

/-- C2 (amended): if every non-reporting job is completed on the first poll,
the watcher returns that snapshot after exactly one fetch and zero sleeps;
if some non-reporting job stays non-completed on every poll, it performs
exactly MAX_ATTEMPTS = 5 fetches, never a sixth, and then returns `none`. -/
theorem watcher_bounded_polling (polls : Nat → List Job) (cid : Nat) :
    (pendingJobs (polls 0) cid = [] →
      get_workflow_jobs polls cid = ⟨some (polls 0), 1, 0⟩) ∧
    ((∀ i, i < MAX_ATTEMPTS → pendingJobs (polls i) cid ≠ []) →
      get_workflow_jobs polls cid = ⟨none, MAX_ATTEMPTS, MAX_ATTEMPTS⟩) := by
  constructor
  · intro h
    rw [get_workflow_jobs, MAX_ATTEMPTS, watchFrom, if_pos (by simp [h])]
  · intro h
    rw [get_workflow_jobs, watchFrom_exhausts polls cid MAX_ATTEMPTS 0 0 0
      (fun i h1 h2 => h i (by omega))]
    simp

/-- Helper for the C2 witness: the one-stuck-job snapshot sequence is
pending on every poll. -/
theorem pollsStuckOne_pending (i : Nat) : pendingJobs (pollsStuckOne i) 9 ≠ [] := by
  show pendingJobs [stuckJob] 9 ≠ []
  decide

/-- Witness for C2 at concrete snapshot sequences: all jobs completed on the
first poll, and one job pending on every poll. -/
theorem watcher_bounded_polling_witness :
    get_workflow_jobs pollsAllDone 9 = ⟨some (pollsAllDone 0), 1, 0⟩ ∧
    get_workflow_jobs pollsStuckOne 9 = ⟨none, MAX_ATTEMPTS, MAX_ATTEMPTS⟩ :=
  ⟨(watcher_bounded_polling pollsAllDone 9).1 (by decide),
   (watcher_bounded_polling pollsStuckOne 9).2 (fun i _ => pollsStuckOne_pending i)⟩

/-- C2 counterexample: on attempt exhaustion the watcher returns the bare
value `none`; scenarios with one and with two still-pending jobs produce
identical failure values, so the failure does not carry the count of
still-pending jobs (the count is only logged). -/
theorem watcher_timeout_carries_no_count :
    (get_workflow_jobs pollsStuckOne 9).result = none ∧
    (get_workflow_jobs pollsStuckTwo 9).result = none ∧
    get_workflow_jobs pollsStuckOne 9 = get_workflow_jobs pollsStuckTwo 9 ∧
    (pendingJobs (pollsStuckOne 4) 9).length = 1 ∧
    (pendingJobs (pollsStuckTwo 4) 9).length = 2 := by
  refine ⟨rfl, rfl, ?_, rfl, rfl⟩
  decide

/-- Per-job contribution to the total duration, used to reason about the
fold in `calculate_total_duration`. -/
def jobContribution (current_job_id : Nat) (job : Job) : Int :=
  if job.id == current_job_id then 0
  else
    match job.started_at, job.completed_at with
    | some start_time, some end_time => (end_time : Int) - (start_time : Int)
    | _, _ => 0

/-- Helper: the step function accumulates the per-job contribution. -/
theorem total_duration_step_eq (cid : Nat) (acc : Int) (job : Job) :
    total_duration_step cid acc job = acc + jobContribution cid job := by
  simp only [total_duration_step, jobContribution]
  split
  · simp
  · split <;> simp

/-- Helper: the aggregation is the sum of per-job contributions. -/
theorem calculate_total_duration_eq_sum (jobs : List Job) (cid : Nat) :
    calculate_total_duration jobs cid = (jobs.map (jobContribution cid)).sum := by
  suffices h : ∀ (l : List Job) (acc : Int),
      l.foldl (total_duration_step cid) acc = acc + (l.map (jobContribution cid)).sum by
    simpa using h jobs 0
  intro l
  induction l with
  | nil => intro acc; simp
  | cons j t ih =>
    intro acc
    simp only [List.foldl_cons, List.map_cons, List.sum_cons, ih, total_duration_step_eq]
    ring

/-- Helper: a job with the excluded id, or one lacking a timestamp,
contributes nothing. -/
theorem jobContribution_eq_zero (cid : Nat) (job : Job)
    (h : job.id = cid ∨ job.started_at = none ∨ job.completed_at = none) :
    jobContribution cid job = 0 := by
  rcases h with h | h | h
  · simp [jobContribution, h]
  · simp [jobContribution, h]
  · rcases hs : job.started_at with _ | s <;> simp [jobContribution, h, hs]

/-- Helper: dropping the jobs with the excluded id does not change the
contribution sum. -/
theorem contribution_sum_filter (cid : Nat) (l : List Job) :
    (l.map (jobContribution cid)).sum =
      ((l.filter (fun job => job.id != cid)).map (jobContribution cid)).sum := by
  induction l with
  | nil => rfl
  | cons j t ih =>
    by_cases hj : j.id = cid
    · rw [List.filter_cons_of_neg (by simp [hj])]
      simp [jobContribution_eq_zero cid j (Or.inl hj), ih]
    · rw [List.filter_cons_of_pos (by simp [hj])]
      simp [ih]

/-- Helper: if every job is excluded or lacks a timestamp, the contribution
sum is zero. -/
theorem contribution_sum_zero (cid : Nat) (l : List Job)
    (hall : ∀ job ∈ l, job.id = cid ∨ job.started_at = none ∨ job.completed_at = none) :
    (l.map (jobContribution cid)).sum = 0 := by
  induction l with
  | nil => rfl
  | cons j t ih =>
    simp only [List.map_cons, List.sum_cons,
      jobContribution_eq_zero cid j (hall j (by simp)), zero_add]
    exact ih (fun job hmem => hall job (List.mem_cons_of_mem _ hmem))

/-- C7: the total-duration aggregation is invariant under permutations of
the job list, never includes the excluded job's timing (aggregating the
list and aggregating the list with the excluded id filtered out agree), and
is zero when no job other than the excluded one has both timestamps. -/
theorem total_duration_aggregation_properties (cid : Nat) (jobs jobs2 : List Job)
    (hperm : jobs.Perm jobs2) :
    calculate_total_duration jobs cid = calculate_total_duration jobs2 cid ∧
    calculate_total_duration jobs cid = calculate_total_duration (filtered_jobs jobs cid) cid ∧
    ((∀ job ∈ jobs, job.id = cid ∨ job.started_at = none ∨ job.completed_at = none) →
      calculate_total_duration jobs cid = 0) := by
  refine ⟨?_, ?_, ?_⟩
  · rw [calculate_total_duration_eq_sum, calculate_total_duration_eq_sum]
    exact (hperm.map (jobContribution cid)).sum_eq
  · rw [calculate_total_duration_eq_sum, calculate_total_duration_eq_sum, filtered_jobs]
    exact contribution_sum_filter cid jobs
  · intro hall
    rw [calculate_total_duration_eq_sum]
    exact contribution_sum_zero cid jobs hall

/-- A job with valid timestamps belonging to the reporting job id 5. -/
def jobX : Job := ⟨5, "notify", "completed", some "success", some 100, some 700, "https://n"⟩

/-- A completed non-reporting job taking 300 seconds. -/
def jobA : Job := ⟨6, "build", "completed", some "success", some 100, some 400, "https://b"⟩

/-- A completed non-reporting job taking 120 seconds. -/
def jobB : Job := ⟨7, "test", "completed", some "success", some 200, some 320, "https://t"⟩

/-- Witness for C7 at a concrete job list, its reversal, and the excluded
job id 5 (whose job jobX has valid timestamps). -/
theorem total_duration_aggregation_properties_witness :
    calculate_total_duration [jobX, jobA, jobB] 5 = calculate_total_duration [jobB, jobA, jobX] 5 ∧
    calculate_total_duration [jobX, jobA, jobB] 5 =
      calculate_total_duration (filtered_jobs [jobX, jobA, jobB] 5) 5 ∧
    ((∀ job ∈ [jobX, jobA, jobB], job.id = 5 ∨ job.started_at = none ∨ job.completed_at = none) →
      calculate_total_duration [jobX, jobA, jobB] 5 = 0) :=
  total_duration_aggregation_properties 5 [jobX, jobA, jobB] [jobB, jobA, jobX] (by decide)

/-- A run of n space characters. -/
def spaces (n : Nat) : String :=
  String.mk (List.replicate n ' ')

/-- Python string formatting with a field spec of the shape
    { :<n }
left-justify and pad with spaces to width n; strings already at least n
characters long pass through unchanged. -/
def ljust (s : String) (n : Nat) : String :=
  s ++ spaces (n - s.length)

/-- Python string formatting with a field spec of the shape
    { :>n }
right-justify and pad with spaces on the left to width n. -/
def rjust (s : String) (n : Nat) : String :=
  spaces (n - s.length) ++ s

/-- The even/odd-index partition the composer builds while enumerating the
filtered job details (src/main.py lines 334, 355-358): item i goes to the
left column when i is even and to the right column when i is odd, each
column keeping its relative order. -/
def splitColumns : List String → List String × List String
  | [] => ([], [])
  | [x] => ([x], [])
  | x :: y :: rest =>
    (x :: (splitColumns rest).1, y :: (splitColumns rest).2)

/-- max(len(detail) for detail in left_column) if left_column else 0
(src/main.py line 361). -/
def maxLeftWidth (left : List String) : Nat :=
  left.foldl (fun m s => max m s.length) 0

/-- The aligned rows the composer emits (src/main.py lines 363-374): the
format string is built as
    { :<max_left_width + 4 } { :>max_left_width + 2 }
so row i is the i-th left entry left-justified to width w + 4, then the
literal space of the format string, then the i-th right entry
right-justified to width w + 2; a column with no entry at position i
contributes the empty string. -/
def twoColumnRows (lines : List String) : List String :=
  let left := (splitColumns lines).1
  let right := (splitColumns lines).2
  let w := maxLeftWidth left
  (List.range (max left.length right.length)).map (fun i =>
    ljust (left.getD i "") (w + 4) ++ " " ++ rjust (right.getD i "") (w + 2))

/-- Helper: unfolding the parity split one element at a time. -/
theorem splitColumns_cons (x : String) (l : List String) :
    splitColumns (x :: l) = (x :: (splitColumns l).2, (splitColumns l).1) := by
  induction l generalizing x with
  | nil => rfl
  | cons y rest ih => simp [splitColumns, ih y]

/-- Helper: the left column has ceil(n/2) entries and the right floor(n/2). -/
theorem splitColumns_lengths (l : List String) :
    (splitColumns l).1.length = (l.length + 1) / 2 ∧
    (splitColumns l).2.length = l.length / 2 := by
  induction l with
  | nil => exact ⟨rfl, rfl⟩
  | cons x t ih =>
    rw [splitColumns_cons]
    refine ⟨?_, ?_⟩
    · simp only [List.length_cons, ih.2]
      omega
    · simp only [ih.1, List.length_cons]

/-- Helper: the fold computing the left-column width never drops below its
accumulator. -/
theorem foldl_max_le_init (l : List String) :
    ∀ a : Nat, a ≤ l.foldl (fun m s => max m s.length) a := by
  induction l with
  | nil => intro a; exact Nat.le_refl a
  | cons x t ih =>
    intro a
    exact Nat.le_trans (Nat.le_max_left a x.length) (ih (max a x.length))

/-- Helper: every member's length bounds into the width fold. -/
theorem length_le_foldl_max (l : List String) (s : String) (h : s ∈ l) :
    ∀ a : Nat, s.length ≤ l.foldl (fun m t => max m t.length) a := by
  induction l with
  | nil => cases h
  | cons x t ih =>
    intro a
    rcases List.mem_cons.1 h with h | h
    · subst h
      exact Nat.le_trans (Nat.le_max_right a s.length) (foldl_max_le_init t _)
    · exact ih h (max a x.length)

/-- Helper: every left entry is at most maxLeftWidth long. -/
theorem getD_length_le_maxLeftWidth (left : List String) (i : Nat) :
    (left.getD i "").length ≤ maxLeftWidth left := by
  by_cases h : i < left.length
  · rw [List.getD_eq_getElem left "" h]
    exact length_le_foldl_max left _ (List.getElem_mem h) 0
  · rw [List.getD_eq_default left "" (Nat.le_of_not_lt h)]
    exact Nat.zero_le _

/-- Helper: string length adds over append. -/
theorem string_length_append (a b : String) : (a ++ b).length = a.length + b.length := by
  rcases a with ⟨da⟩
  rcases b with ⟨db⟩
  show (String.mk (da ++ db)).length = _
  simp [String.length]

/-- Helper: string append is associative. -/
theorem string_append_assoc (a b c : String) : a ++ b ++ c = a ++ (b ++ c) := by
  rcases a with ⟨da⟩
  rcases b with ⟨db⟩
  rcases c with ⟨dc⟩
  show String.mk (da ++ db ++ dc) = String.mk (da ++ (db ++ dc))
  simp

/-- Helper: the length of a run of spaces. -/
theorem spaces_length (n : Nat) : (spaces n).length = n := by
  simp [spaces, String.length]

/-- Helper: left-justifying a short-enough string yields exactly the target
width. -/
theorem ljust_length (s : String) (n : Nat) (h : s.length ≤ n) :
    (ljust s n).length = n := by
  rw [ljust, string_length_append, spaces_length]
  omega

/-- Helper: the number of emitted rows. -/
theorem twoColumnRows_length (lines : List String) :
    (twoColumnRows lines).length = (lines.length + 1) / 2 := by
  have h1 := (splitColumns_lengths lines).1
  have h2 := (splitColumns_lengths lines).2
  simp only [twoColumnRows, List.length_map, List.length_range]
  omega

/-- Helper: the shape of each emitted row. -/
theorem twoColumnRows_getElem (lines : List String) (i : Nat)
    (h : i < (twoColumnRows lines).length) :
    (twoColumnRows lines)[i] =
      ljust ((splitColumns lines).1.getD i "") (maxLeftWidth (splitColumns lines).1 + 4) ++ " " ++
      rjust ((splitColumns lines).2.getD i "") (maxLeftWidth (splitColumns lines).1 + 2) := by
  simp [twoColumnRows, List.getElem_map, List.getElem_range]

/-- C4 counterexample: for the input lines "ab" and "c" the single output
row is not the left entry padded to maxLeftWidth + 4 immediately followed
by the right entry: the format string inserts a further literal space and
right-justifies the right entry to width maxLeftWidth + 2. -/
theorem two_column_row_not_bare_concatenation :
    twoColumnRows ["ab", "c"] = ["ab        c"] ∧
    twoColumnRows ["ab", "c"] ≠
      [ljust "ab" (maxLeftWidth (splitColumns ["ab", "c"]).1 + 4) ++ "c"] := by
  decide

/-- C4 (amended): each output row is the left entry padded with spaces to
exactly maxLeftWidth + 4 characters, then a single separating space, then
the corresponding right entry right-justified: its left padding is exactly
maxLeftWidth + 2 minus the entry's length, so the right field occupies
width max(maxLeftWidth + 2, its own length); an entry is the empty string
where a column has no entry at that position. -/
theorem two_column_row_structure (lines : List String) (i : Nat)
    (h : i < (twoColumnRows lines).length) :
    ∃ (padLeft padRight : Nat),
      (twoColumnRows lines)[i] =
        (splitColumns lines).1.getD i "" ++ spaces padLeft ++ " " ++
          spaces padRight ++ (splitColumns lines).2.getD i "" ∧
      ((splitColumns lines).1.getD i "").length + padLeft =
        maxLeftWidth (splitColumns lines).1 + 4 ∧
      padRight =
        maxLeftWidth (splitColumns lines).1 + 2 - ((splitColumns lines).2.getD i "").length ∧
      ((splitColumns lines).2.getD i "").length + padRight =
        max (maxLeftWidth (splitColumns lines).1 + 2)
          ((splitColumns lines).2.getD i "").length := by
  refine ⟨maxLeftWidth (splitColumns lines).1 + 4 - ((splitColumns lines).1.getD i "").length,
    maxLeftWidth (splitColumns lines).1 + 2 - ((splitColumns lines).2.getD i "").length,
    ?_, ?_, rfl, ?_⟩
  · rw [twoColumnRows_getElem lines i h, ljust, rjust]
    simp only [string_append_assoc]
  · have := getD_length_le_maxLeftWidth (splitColumns lines).1 i
    omega
  · omega

/-- Witness for C4 at the concrete input lines "ab" and "c", row 0. -/
theorem two_column_row_structure_witness :
    ∃ (padLeft padRight : Nat),
      (twoColumnRows ["ab", "c"])[0] =
        (splitColumns ["ab", "c"]).1.getD 0 "" ++ spaces padLeft ++ " " ++
          spaces padRight ++ (splitColumns ["ab", "c"]).2.getD 0 "" ∧
      ((splitColumns ["ab", "c"]).1.getD 0 "").length + padLeft =
        maxLeftWidth (splitColumns ["ab", "c"]).1 + 4 ∧
      padRight =
        maxLeftWidth (splitColumns ["ab", "c"]).1 + 2 -
          ((splitColumns ["ab", "c"]).2.getD 0 "").length ∧
      ((splitColumns ["ab", "c"]).2.getD 0 "").length + padRight =
        max (maxLeftWidth (splitColumns ["ab", "c"]).1 + 2)
          ((splitColumns ["ab", "c"]).2.getD 0 "").length :=
  two_column_row_structure ["ab", "c"] 0 (by decide)

/-- C8: the layout emits exactly max(len(left), len(right)) = ceil(n/2)
rows, contributes no row for an empty input, and every row opens with its
own left entry padded with spaces to the one shared width
maxLeftWidth + 4. -/
theorem layout_row_count_and_alignment (lines : List String) :
    (twoColumnRows lines).length = (lines.length + 1) / 2 ∧
    (twoColumnRows lines).length =
      max (splitColumns lines).1.length (splitColumns lines).2.length ∧
    (lines = [] → twoColumnRows lines = []) ∧
    ∀ i : Nat, (h : i < (twoColumnRows lines).length) →
      ∃ (padLeft : Nat) (rest : String),
        (twoColumnRows lines)[i] =
          (splitColumns lines).1.getD i "" ++ spaces padLeft ++ rest ∧
        ((splitColumns lines).1.getD i "").length + padLeft =
          maxLeftWidth (splitColumns lines).1 + 4 := by
  refine ⟨twoColumnRows_length lines, ?_, ?_, ?_⟩
  · simp [twoColumnRows, List.length_map, List.length_range]
  · intro h
    subst h
    rfl
  · intro i h
    refine ⟨maxLeftWidth (splitColumns lines).1 + 4 - ((splitColumns lines).1.getD i "").length,
      " " ++ rjust ((splitColumns lines).2.getD i "") (maxLeftWidth (splitColumns lines).1 + 2),
      ?_, ?_⟩
    · rw [twoColumnRows_getElem lines i h, ljust, string_append_assoc]
    · have := getD_length_le_maxLeftWidth (splitColumns lines).1 i
      omega

/-- Witness for C8 at a concrete five-line input: exactly three rows. -/
theorem layout_row_count_and_alignment_witness :
    (twoColumnRows ["a", "bb", "ccc", "d", "e"]).length = 3 :=
  (layout_row_count_and_alignment ["a", "bb", "ccc", "d", "e"]).1

/-- The pull-request summary nested in a workflow-run payload; each field
may be absent. -/
structure PullRequest where
  title : Option String
  html_url : Option String
deriving DecidableEq, Repr

/-- The head-commit payload nested in a workflow run. -/
structure HeadCommit where
  message : Option String
  id : Option String
deriving DecidableEq, Repr

/-- The repository summary nested in a workflow run. -/
structure Repo where
  html_url : Option String
  full_name : Option String
deriving DecidableEq, Repr

/-- The release payload nested in a workflow run. -/
structure Release where
  tag_name : Option String
  html_url : Option String
deriving DecidableEq, Repr

/-- The client payload of a repository_dispatch run. -/
structure ClientPayload where
  action : Option String
deriving DecidableEq, Repr

/-- The schedule payload of a scheduled run. -/
structure Schedule where
  cron : Option String
deriving DecidableEq, Repr

/-- The actor summary nested in a workflow run. -/
structure Actor where
  login : Option String
  html_url : Option String
deriving DecidableEq, Repr

/-- A workflow run as consumed by `format_telegram_message` (src/main.py
lines 259-384).  Every field the code reads with dict.get is an `Option`;
`none` models an absent key, in which case the code substitutes the
documented default. -/
structure WorkflowRun where
  name : Option String
  run_number : Option Nat
  event : Option String
  html_url : Option String
  conclusion : Option String
  created_at : Option Nat
  updated_at : Option Nat
  actor : Option Actor
  repository : Option Repo
  pull_requests : Option (List PullRequest)
  head_commit : Option HeadCommit
  release : Option Release
  head_branch : Option String
  ref_type : Option String
  ref : Option String
  client_payload : Option ClientPayload
  schedule : Option Schedule
deriving Repr

/-- A pull request with no fields, the element of the default list
    [ { } ]
the code substitutes for an absent pull_requests key. -/
def emptyPullRequest : PullRequest := ⟨none, none⟩

/-- The empty dict substituted for an absent head_commit key. -/
def emptyHeadCommit : HeadCommit := ⟨none, none⟩

/-- The empty dict substituted for an absent repository key. -/
def emptyRepo : Repo := ⟨none, none⟩

/-- The empty dict substituted for an absent release key. -/
def emptyRelease : Release := ⟨none, none⟩

/-- The empty dict substituted for an absent client_payload key. -/
def emptyClientPayload : ClientPayload := ⟨none⟩

/-- The empty dict substituted for an absent schedule key. -/
def emptySchedule : Schedule := ⟨none⟩

/-- The empty dict substituted for an absent actor key. -/
def emptyActor : Actor := ⟨none, none⟩

/-- Embedding of `get_status_icon` (src/main.py lines 235-246): dict lookup
with default. -/
def get_status_icon (conclusion : Option String) : String :=
  match conclusion with
  | some "success" => "✅"
  | some "failure" => "❌"
  | some "cancelled" => "🚫"
  | some "skipped" => "⏭️"
  | some "timed_out" => "⏰"
  | some "neutral" => "⚪"
  | some "action_required" => "⚠️"
  | _ => "❓"

/-- Embedding of `get_workflow_status_emoji` (src/main.py lines 248-257). -/
def get_workflow_status_emoji (conclusion : Option String) : String :=
  if conclusion == some "success" then "🟩"
  else if conclusion == some "failure" then "🟥"
  else if conclusion == some "cancelled" then "⬜"
  else "🟦"

/-- One rendered job line of the job-details section (src/main.py lines
334-353).  `compute_duration` is applied to the parsed timestamps; the
source then tests `if not job_duration` (string falsiness, i.e. emptiness)
before substituting "(In progress)" or "(Not started)", and finally renders
icon, name link and the parenthesized duration. -/
def renderJob (job : Job) : String :=
  let job_duration := compute_duration job.started_at job.completed_at
  let job_duration :=
    if job_duration = "" then
      if job.started_at.isSome then "(In progress)" else "(Not started)"
    else job_duration
  get_status_icon job.conclusion ++ " [" ++ job.name ++ "](" ++ job.html_url ++ ") (" ++
    job_duration ++ ")"

/-- The event-details fragment of the composed message (src/main.py lines
288-323).  The result is `none` exactly when the code raises: for
event_type "pull_request" with a present-but-empty pull_requests list,
    workflow.get("pull_requests", [ { } ])[0]
raises IndexError, which only the composer-level try/except catches. -/
def eventFragment (run : WorkflowRun) : Option String :=
  let event_type := run.event.getD "workflow_dispatch"
  let event_url := run.html_url.getD ""
  if event_type = "pull_request" then
    match run.pull_requests.getD [emptyPullRequest] with
    | [] => none
    | pr :: _ =>
      let pr_title := pr.title.getD "Unknown Pull Request"
      let pr_url := pr.html_url.getD event_url
      some ("🔗 [Pull Request: " ++ pr_title ++ "](" ++ pr_url ++ ")\n\n")
  else if event_type = "push" then
    let commit_message := (run.head_commit.getD emptyHeadCommit).message.getD "No commit message"
    let commit_sha := (run.head_commit.getD emptyHeadCommit).id.getD ""
    let commit_url :=
      if commit_sha ≠ "" then
        (run.repository.getD emptyRepo).html_url.getD "" ++ "/commit/" ++ commit_sha
      else ""
    some (if commit_url ≠ "" then
      "📝 [Commit: " ++ commit_message ++ "](" ++ commit_url ++ ")\n\n"
    else "📝 Commit: " ++ commit_message ++ "\n\n")
  else if event_type = "release" then
    let release_name := (run.release.getD emptyRelease).tag_name.getD "No release tag"
    let release_url := (run.release.getD emptyRelease).html_url.getD event_url
    some ("🔗 [Release: " ++ release_name ++ "](" ++ release_url ++ ")\n\n")
  else if event_type = "workflow_dispatch" then
    let branch_name := run.head_branch.getD "No branch"
    some ("🔗 Workflow dispatched on branch: `" ++ branch_name ++ "`\n\n")
  else if event_type = "create" then
    let ref_type := run.ref_type.getD "No ref type"
    let ref_name := run.ref.getD "No ref name"
    let repo_html_url := (run.repository.getD emptyRepo).html_url.getD ""
    let ref_url :=
      if ref_name ≠ "" ∧ repo_html_url ≠ "" then repo_html_url ++ "/tree/" ++ ref_name
      else ""
    some (if ref_url ≠ "" then
      "🔗 [Created: " ++ ref_type ++ "](" ++ ref_url ++ ") " ++ ref_name ++ "\n\n"
    else "🔗 Created: " ++ ref_type ++ " " ++ ref_name ++ "\n\n")
  else if event_type = "delete" then
    let ref_type := run.ref_type.getD "No ref type"
    let ref_name := run.ref.getD "No ref name"
    some ("🗑️ Deleted: " ++ ref_type ++ " `" ++ ref_name ++ "`\n\n")
  else if event_type = "repository_dispatch" then
    let event_name := (run.client_payload.getD emptyClientPayload).action.getD "No event action"
    some ("🔗 Repository Dispatch event: `" ++ event_name ++ "`\n\n")
  else if event_type = "schedule" then
    let sched := (run.schedule.getD emptySchedule).cron.getD "No schedule"
    some ("⏰ Scheduled event with cron: `" ++ sched ++ "`\n\n")
  else
    some "🔗 [Event details]\n\n"

/-- Embedding of `format_telegram_message` (src/main.py lines 259-384).
It assembles the header, the event fragment, the author line, the
two-column job-details section and the repository line; the function-level
try/except turns the one modelled exception into the literal error
notice. -/
def format_telegram_message (workflow : WorkflowRun) (jobs : List Job)
    (current_job_id : Nat) : String :=
  match eventFragment workflow with
  | none => "Error formatting message. See logs for details."
  | some frag =>
    let workflow_name := workflow.name.getD "Unknown Workflow"
    let run_number := match workflow.run_number with
      | some n => toString n
      | none => "#"
    let event_type := workflow.event.getD "workflow_dispatch"
    let event_url := workflow.html_url.getD ""
    let duration := match workflow.created_at, workflow.updated_at with
      | some c, some u => compute_duration (some c) (some u)
      | _, _ => "N/A"
    let workflow_display_name := workflow_name ++ " #" ++ run_number
    let author_name := (workflow.actor.getD emptyActor).login.getD "Unknown Author"
    let author_url := (workflow.actor.getD emptyActor).html_url.getD ""
    let emoji := get_workflow_status_emoji workflow.conclusion
    let rows := twoColumnRows ((filtered_jobs jobs current_job_id).map renderJob)
    let jobSection := String.join (rows.map (fun r => r ++ "\n\n"))
    let repo_url := (workflow.repository.getD emptyRepo).html_url.getD ""
    let repo_name := (workflow.repository.getD emptyRepo).full_name.getD "Unknown Repository"
    emoji ++ " *GITHUB ACTIONS NOTIFICATION*\n\n" ++
      "🔄 _Event:_ `" ++ event_type ++ "` | ⚙️ _Workflow:_ [" ++ workflow_display_name ++ "](" ++
      event_url ++ ") _completed in_ " ++ duration ++ "\n\n" ++
      frag ++
      "👤 _Author:_ [" ++ author_name ++ "](" ++ author_url ++ ")\n\n" ++
      "_Job Details:_ \n\n" ++
      jobSection ++
      "\n📦 _Repository:_ [" ++ repo_name ++ "](" ++ repo_url ++ ")\n\n"

/-- Whether the first character list starts the second. -/
def isPrefixList : List Char → List Char → Bool
  | [], _ => true
  | _ :: _, [] => false
  | p :: ps, c :: cs => p == c && isPrefixList ps cs

/-- Whether the pattern occurs somewhere in the character list. -/
def listContains : List Char → List Char → Bool
  | [], pat => pat.isEmpty
  | c :: t, pat => isPrefixList pat (c :: t) || listContains t pat

/-- Substring test used to state containment facts about composed
messages. -/
def strContains (s pattern : String) : Bool :=
  listContains s.data pattern.data

/-- Helper: a string ending in the literal "s" is never empty. -/
theorem append_s_ne_empty (a : String) : a ++ "s" ≠ "" := by
  intro hc
  have hlen := congrArg String.length hc
  rw [string_length_append] at hlen
  have h1 : ("s" : String).length = 1 := by decide
  have h0 : ("" : String).length = 0 := by decide
  rw [h1, h0] at hlen
  omega

/-- Helper: `compute_duration` always returns a non-empty string ("N/A" or
a rendered duration), so Python's `if not job_duration` test in the
composer is never true. -/
theorem compute_duration_ne_empty (s e : Option Nat) : compute_duration s e ≠ "" := by
  have hna : ("N/A" : String) ≠ "" := by decide
  rcases s with _ | sv
  · exact hna
  rcases e with _ | ev
  · exact hna
  simp only [compute_duration]
  split
  · exact hna
  · exact append_s_ne_empty _

/-- A non-reporting job that has started but not completed. -/
def jobStartedOnly : Job := ⟨3, "deploy", "in_progress", none, some 100, none, "https://d"⟩

/-- A non-reporting job that has not started. -/
def jobNotStarted : Job := ⟨4, "lint", "queued", none, none, none, "https://l"⟩

/-- A concrete push-event workflow run used to evaluate the full composer. -/
def wfPush : WorkflowRun :=
  { name := some "CI"
    run_number := some 7
    event := some "push"
    html_url := some "https://run"
    conclusion := some "success"
    created_at := some 0
    updated_at := some 300
    actor := some ⟨some "alice", some "https://alice"⟩
    repository := some ⟨some "https://repo", some "org/repo"⟩
    pull_requests := none
    head_commit := some ⟨some "fix build", some "abc123"⟩
    release := none
    head_branch := some "main"
    ref_type := none
    ref := none
    client_payload := none
    schedule := none }

set_option maxRecDepth 100000 in
/-- C3: in the composed message a job that merely lacks timestamps is
rendered with the parenthesized part "(N/A)", never "(In progress)" or
"(Not started)": `compute_duration` always returns a non-empty string, so
the source's `if not job_duration` fallback branch (src/main.py lines
345-349) is unreachable.  A job with both timestamps does render its
formatted duration. -/
theorem render_job_missing_timestamps_render_na :
    renderJob jobA = "✅ [build](https://b) (5m 0s)" ∧
    renderJob jobStartedOnly = "❓ [deploy](https://d) (N/A)" ∧
    renderJob jobNotStarted = "❓ [lint](https://l) (N/A)" ∧
    (∀ (s e : Option Nat), compute_duration s e ≠ "") ∧
    strContains (format_telegram_message wfPush [jobStartedOnly] 99) "(In progress)" = false ∧
    strContains (format_telegram_message wfPush [jobNotStarted] 99) "(Not started)" = false ∧
    strContains (format_telegram_message wfPush [jobStartedOnly] 99) "(N/A)" = true := by
  refine ⟨by decide, by decide, by decide, compute_duration_ne_empty, by decide, by decide,
    by decide⟩

/-- The workflow run with only an event discriminator; every payload field
is an absent key. -/
def bareRun (e : Option String) : WorkflowRun :=
  ⟨none, none, e, none, none, none, none, none, none, none, none, none, none, none, none,
    none, none⟩

/-- A pull_request run whose first pull request carries title and url. -/
def prRun : WorkflowRun :=
  { bareRun (some "pull_request") with
    pull_requests := some [⟨some "Fix crash", some "https://pr/1"⟩] }

/-- A push run with head commit and repository. -/
def pushRun : WorkflowRun :=
  { bareRun (some "push") with
    head_commit := some ⟨some "fix build", some "abc123"⟩
    repository := some ⟨some "https://repo", some "org/repo"⟩ }

/-- A release run with tag and url. -/
def releaseRun : WorkflowRun :=
  { bareRun (some "release") with release := some ⟨some "v1.2.3", some "https://rel"⟩ }

/-- A workflow_dispatch run with a head branch. -/
def dispatchRun : WorkflowRun :=
  { bareRun (some "workflow_dispatch") with head_branch := some "main" }

/-- A create run with ref type, ref name and repository. -/
def createRun : WorkflowRun :=
  { bareRun (some "create") with
    ref_type := some "branch"
    ref := some "feature-x"
    repository := some ⟨some "https://repo", some "org/repo"⟩ }

/-- A delete run with ref type and ref name. -/
def deleteRun : WorkflowRun :=
  { bareRun (some "delete") with ref_type := some "branch", ref := some "feature-x" }

/-- A repository_dispatch run with a client-payload action. -/
def repoDispatchRun : WorkflowRun :=
  { bareRun (some "repository_dispatch") with client_payload := some ⟨some "deploy-now"⟩ }

/-- A schedule run with a cron expression. -/
def scheduleRun : WorkflowRun :=
  { bareRun (some "schedule") with schedule := some ⟨some "0 0 * * *"⟩ }

/-- Helper: an absent event field makes the resolver behave exactly as for
the literal discriminator "workflow_dispatch". -/
theorem eventFragment_default_event (r : WorkflowRun) (h : r.event = none) :
    eventFragment r = eventFragment { r with event := some "workflow_dispatch" } := by
  simp [eventFragment, h]

/-- Helper: every discriminator outside the eight named ones falls to the
generic placeholder fragment. -/
theorem eventFragment_unrecognized (r : WorkflowRun) (e : String)
    (hevent : r.event = some e)
    (hmem : e ∉ ["pull_request", "push", "release", "workflow_dispatch", "create",
      "delete", "repository_dispatch", "schedule"]) :
    eventFragment r = some "🔗 [Event details]\n\n" := by
  simp only [List.mem_cons, List.not_mem_nil, or_false, not_or] at hmem
  obtain ⟨h1, h2, h3, h4, h5, h6, h7, h8⟩ := hmem
  rw [eventFragment, hevent]
  simp only [Option.getD_some]
  rw [if_neg h1, if_neg h2, if_neg h3, if_neg h4, if_neg h5, if_neg h6, if_neg h7, if_neg h8]

/-- C6: the event-context dispatch is total: each named discriminator with
its payload present yields a fragment containing the payload's literal
token; each named discriminator with its optional payload fields absent
yields the documented placeholder string rather than an error; an absent
event field behaves as "workflow_dispatch"; and every unrecognized
discriminator yields the generic placeholder fragment. -/
theorem event_context_dispatch_total :
    (∀ r : WorkflowRun, r.event = none →
      eventFragment r = eventFragment { r with event := some "workflow_dispatch" }) ∧
    (∀ (r : WorkflowRun) (e : String), r.event = some e →
      e ∉ ["pull_request", "push", "release", "workflow_dispatch", "create",
        "delete", "repository_dispatch", "schedule"] →
      eventFragment r = some "🔗 [Event details]\n\n") ∧
    eventFragment prRun = some ("🔗 [Pull Request: " ++ "Fix crash" ++ "](https://pr/1)\n\n") ∧
    eventFragment pushRun =
      some ("📝 [Commit: " ++ "fix build" ++ "](https://repo/commit/" ++ "abc123" ++ ")\n\n") ∧
    eventFragment releaseRun = some ("🔗 [Release: " ++ "v1.2.3" ++ "](https://rel)\n\n") ∧
    eventFragment dispatchRun = some ("🔗 Workflow dispatched on branch: `" ++ "main" ++ "`\n\n") ∧
    eventFragment createRun =
      some ("🔗 [Created: " ++ "branch" ++ "](https://repo/tree/" ++ "feature-x" ++ ") " ++
        "feature-x" ++ "\n\n") ∧
    eventFragment deleteRun = some ("🗑️ Deleted: " ++ "branch" ++ " `" ++ "feature-x" ++ "`\n\n") ∧
    eventFragment repoDispatchRun =
      some ("🔗 Repository Dispatch event: `" ++ "deploy-now" ++ "`\n\n") ∧
    eventFragment scheduleRun = some ("⏰ Scheduled event with cron: `" ++ "0 0 * * *" ++ "`\n\n") ∧
    eventFragment (bareRun (some "pull_request")) =
      some "🔗 [Pull Request: Unknown Pull Request]()\n\n" ∧
    eventFragment (bareRun (some "push")) = some "📝 Commit: No commit message\n\n" ∧
    eventFragment (bareRun (some "release")) = some "🔗 [Release: No release tag]()\n\n" ∧
    eventFragment (bareRun (some "workflow_dispatch")) =
      some "🔗 Workflow dispatched on branch: `No branch`\n\n" ∧
    eventFragment (bareRun (some "create")) = some "🔗 Created: No ref type No ref name\n\n" ∧
    eventFragment (bareRun (some "delete")) =
      some "🗑️ Deleted: No ref type `No ref name`\n\n" ∧
    eventFragment (bareRun (some "repository_dispatch")) =
      some "🔗 Repository Dispatch event: `No event action`\n\n" ∧
    eventFragment (bareRun (some "schedule")) =
      some "⏰ Scheduled event with cron: `No schedule`\n\n" :=
  ⟨eventFragment_default_event, eventFragment_unrecognized, by decide⟩

end WorkflowNotify
